import Mathlib

/-
  Verification of the protocol test harness of the apple-cal-mcp test scripts.

  The repository's scripts drive a subprocess over line-delimited JSON-RPC:
  a drain-pump thread moves stripped stdout lines into a queue, and a
  send_request loop polls that queue until a candidate line appears or a
  deadline elapses.  We embed each script's correlator loop as a structural
  recursion over the finite list of queue entries that become available
  before the deadline (in arrival order); exhausting the list models the
  deadline elapsing with the remaining polls finding the queue empty.
  Python's json.loads is abstracted as a parameter of type
  String -> Option Json (none models json.JSONDecodeError); concrete
  instantiations in witnesses and counterexamples map exact line strings to
  their JSON values.
-/

namespace AppleCalMcp

/-- A JSON value as produced by Python's json.loads: null, booleans, numbers
(integers suffice for the ids and codes in these scripts), strings, arrays
and objects. -/
inductive Json where
  | null
  | bool (b : Bool)
  | num (n : Int)
  | str (s : String)
  | arr (elems : List Json)
  | obj (fields : List (String × Json))

/-- Python dict lookup d[k] / d.get(k): field lookup on an object, none
otherwise.  The harness only applies this to values parsed from lines
beginning with a brace, which are objects. -/
def Json.get : Json → String → Option Json
  | Json.obj fields, k => List.lookup k fields
  | _, _ => none

/-- Python membership test, as the scripts use it on parsed responses
(for instance "result" in response): true exactly when the value is an
object with the key. -/
def Json.hasKey (j : Json) (k : String) : Bool :=
  (j.get k).isSome

/-- Python truthiness of a JSON value: None, False, 0, "", [] and
empty dicts are falsy. -/
def Json.isTruthy : Json → Bool
  | Json.null => false
  | Json.bool b => b
  | Json.num n => decide (n ≠ 0)
  | Json.str s => decide (s ≠ "")
  | Json.arr elems => !elems.isEmpty
  | Json.obj fields => !fields.isEmpty

/-- Abstraction of Python's json.loads on one line: none models a
json.JSONDecodeError being raised. -/
abbrev Parse := String → Option Json

/-- The characters Python's str.isspace() recognizes, which a bare
str.strip() removes: the ASCII whitespace characters including vertical
tab and form feed, the information-separator control characters, NEL, and
the Unicode space code points (no-break spaces, the en/em quad range,
line and paragraph separators, narrow no-break, medium mathematical and
ideographic space). -/
def pyIsSpace (c : Char) : Bool :=
  c = ' ' || c = '\t' || c = '\n' || c = '\r' || c = '\x0b' || c = '\x0c' ||
  ('\x1c' ≤ c && c ≤ '\x1f') || c = '\x85' || c = '\xa0' || c = '\u1680' ||
  ('\u2000' ≤ c && c ≤ '\u200a') || c = '\u2028' || c = '\u2029' ||
  c = '\u202f' || c = '\u205f' || c = '\u3000'

/-- Python's str.strip(): remove leading and trailing characters drawn
from the str.isspace() set. -/
def pyStrip (s : String) : String :=
  String.mk (((s.data.dropWhile pyIsSpace).reverse.dropWhile
    pyIsSpace).reverse)

/-- Python's str.startswith(p): the characters of p are a prefix of the
characters of s. -/
def pyStartsWith (s p : String) : Bool :=
  p.data.isPrefixOf s.data

/-- The two characters a queued line must begin with to be considered a
candidate response in the pre-filtering correlators
(line.startswith in test_edge_cases.py:44, test_integration.py:57,
real_world_tests.py:47). -/
def jsonObjStart : String := "\x7b\""

/-- The outcome a Python function signals by raising an uncaught exception
(exn, carrying the exception class name) versus returning a value. -/
inductive PyResult (α : Type) where
  | ok (a : α)
  | exn (name : String)

/-- The drain pump of integration/test_edge_cases.py (read_stdout,
lines 26-28): each stdout line is stripped and pushed onto the queue;
nothing is pushed on end-of-stream. -/
def edgeCases.readStdout (streamLines : List String) : List String :=
  streamLines.map pyStrip

/-- The drain pump of tools/test_full_mcp.py (read_stdout, lines 31-34):
each stdout line is stripped and pushed tagged with its origin; on
end-of-stream a final ("stdout", None) sentinel is pushed. -/
def fullMcp.readStdout (streamLines : List String) : List (String × Option String) :=
  streamLines.map (fun l => ("stdout", some (pyStrip l))) ++ [("stdout", none)]

/-- The classification a matched response receives, as printed by
test_edge_cases.py's send_request (lines 47-56): success, the
expected-failure mismatch, or a protocol error carrying the message the
script extracts. -/
inductive Outcome where
  | success
  | mismatch
  | protocolError (message : Json)

/-- The classification block of test_edge_cases.py lines 47-56, run on a
parsed response before it is returned; it resolves to the printed outcome
or raises uncaught (the except tuple of line 58 catches only Empty and
JSONDecodeError).  With expect_error set and an error member present,
line 49 subscripts response["error"]["message"]: a KeyError when the
message is missing, a TypeError when the error value is not a dict.
Without expect_error and no result member, line 56 evaluates
response.get("error", empty dict).get("message", "Unknown"): an
AttributeError when the error value present is not a dict.  A parse
consistent with json.loads yields an object for every line beginning
with a brace, so the membership tests and the response-level .get are
modelled as dict operations. -/
def edgeCases.classifyRun (expectError : Bool) (response : Json) : PyResult Outcome :=
  if expectError then
    if response.hasKey "error" then
      match response.get "error" with
      | some (Json.obj efields) =>
        match (Json.obj efields).get "message" with
        | some _ => PyResult.ok Outcome.success
        | none => PyResult.exn "KeyError"
      | some _ => PyResult.exn "TypeError"
      | none => PyResult.exn "KeyError"
    else PyResult.ok Outcome.mismatch
  else
    if response.hasKey "result" then PyResult.ok Outcome.success
    else
      match (response.get "error").getD (Json.obj []) with
      | Json.obj efields =>
        PyResult.ok (Outcome.protocolError
          (((Json.obj efields).get "message").getD (Json.str "Unknown")))
      | _ => PyResult.exn "AttributeError"

/-- The send_request loop of integration/test_edge_cases.py (lines 34-63)
over the queued lines available before the 5 s deadline: the request is
written to stdin (it does not otherwise influence the loop), then lines
are popped in order; a line that is nonempty and starts with a
brace-quote is parsed, the classification block of lines 47-56 runs on
the parsed response (propagating its uncaught exceptions), and the
response is returned whatever its id or fields; a line failing the test
or raising JSONDecodeError is skipped; exhausting the queue models the
deadline elapsing, returning None. -/
def edgeCases.sendRequest (request : Json) (expectError : Bool) (parse : Parse) :
    List String → PyResult (Option Json)
  | [] => PyResult.ok none
  | line :: rest =>
    if line ≠ "" ∧ pyStartsWith line jsonObjStart then
      match parse line with
      | some response =>
        match edgeCases.classifyRun expectError response with
        | PyResult.ok _ => PyResult.ok (some response)
        | PyResult.exn e => PyResult.exn e
      | none => edgeCases.sendRequest request expectError parse rest
    else edgeCases.sendRequest request expectError parse rest

/-- The value send_request returns when the deadline elapses with no
candidate line (test_edge_cases.py line 63): None. -/
def edgeCases.timeoutValue : PyResult (Option Json) := PyResult.ok none

/-- One full exchange of test_edge_cases.py: raw stdout lines pass through
the stripping drain pump before the correlator polls them. -/
def edgeCases.runExchange (request : Json) (expectError : Bool) (parse : Parse)
    (rawStreamLines : List String) : PyResult (Option Json) :=
  edgeCases.sendRequest request expectError parse (edgeCases.readStdout rawStreamLines)

/-- The send_request loop of tools/test_full_mcp.py (lines 49-88) over the
queued stdout entries available before the 5 s deadline.  There is no
prefix filter and no id check: the first nonempty line is parsed and the
parsed response returned whatever its id; if json.loads raises, the line
is returned wrapped as the dict containing a raw_response field
(lines 71-73), which also terminates the exchange.  Stderr entries are
only printed and do not affect the returned value.  Exhausting the queue
models the deadline elapsing, returning the Python value None (line 88),
which in the Json model is the null value — the same value json.loads
produces for a bare null line, so a parsed null return coincides with
the timeout return, as it does in the Python. -/
def fullMcp.sendRequest (request : Json) (parse : Parse) : List String → Json
  | [] => Json.null
  | line :: rest =>
    if line ≠ "" then
      match parse line with
      | some response => response
      | none => Json.obj [("raw_response", Json.str line)]
    else fullMcp.sendRequest request parse rest

/-- The value test_full_mcp.py's send_request returns on deadline
(line 88): None, the null value of the Json model. -/
def fullMcp.timeoutValue : Json := Json.null

/-- The drain pump of tools/real_world_tests.py (read_stdout, lines 28-30):
stripped lines only, no sentinel on end-of-stream. -/
def realWorld.readStdout (streamLines : List String) : List String :=
  streamLines.map pyStrip

/-- The send_request loop of tools/real_world_tests.py (lines 36-61) over
the queued lines available before the 10 s deadline.  A candidate line
(nonempty, brace-quote start, parses) with a result member has its
result.content unwrapped: an empty (falsy) content falls through and
polling continues; otherwise json.loads(content[0]["text"]) is returned,
a JSONDecodeError there being caught so that polling continues.  A
candidate without a result member prints line 54's
response.get("error", empty dict).get("message", "Unknown") — raising an
uncaught AttributeError when the error value present is not a dict — and
then returns None at once (line 55), the same value as the deadline
elapsing (line 61).  Shapes the script would crash on (a non-dict
result, a content[0] without a "text" string) are likewise modelled as
uncaught exceptions. -/
def realWorld.sendRequest (request : Json) (parse : Parse) :
    List String → PyResult (Option Json)
  | [] => PyResult.ok none
  | line :: rest =>
    if line ≠ "" ∧ pyStartsWith line jsonObjStart then
      match parse line with
      | none => realWorld.sendRequest request parse rest
      | some response =>
        if response.hasKey "result" then
          match (response.get "result").getD Json.null with
          | Json.obj rfields =>
            match ((Json.obj rfields).get "content").getD (Json.arr []) with
            | Json.arr [] => realWorld.sendRequest request parse rest
            | Json.arr (c0 :: _) =>
              match c0.get "text" with
              | some (Json.str t) =>
                match parse t with
                | some payload => PyResult.ok (some payload)
                | none => realWorld.sendRequest request parse rest
              | some _ => PyResult.exn "TypeError"
              | none =>
                match c0 with
                | Json.obj _ => PyResult.exn "KeyError"
                | _ => PyResult.exn "TypeError"
            | other =>
              if other.isTruthy then PyResult.exn "TypeError"
              else realWorld.sendRequest request parse rest
          | _ => PyResult.exn "AttributeError"
        else
          match response with
          | Json.obj _ =>
            match (response.get "error").getD (Json.obj []) with
            | Json.obj _ => PyResult.ok none
            | _ => PyResult.exn "AttributeError"
          | _ => PyResult.exn "AttributeError"
    else realWorld.sendRequest request parse rest

/-- The value real_world_tests.py's send_request returns when the 10 s
deadline elapses (line 61): None. -/
def realWorld.timeoutValue : PyResult (Option Json) := PyResult.ok none

/-- A subprocess as the lifecycle cleanup code observes it after
process.terminate(): the number of seconds until it exits naturally,
or none if it ignores the signal and never exits. -/
structure Subprocess where
  exitDelay : Option Nat

/-- The grace period passed to process.wait in test_full_mcp.py line 159:
two seconds. -/
def gracePeriod : Nat := 2

/-- The cleanup block of tools/test_full_mcp.py lines 155-161:
process.terminate(), then process.wait(timeout=2); on TimeoutExpired,
process.kill().  Returns the seconds until the subprocess is gone; the
value is always defined because the kill path bounds the wait. -/
def fullMcp.cleanup (p : Subprocess) : Option Nat :=
  match p.exitDelay with
  | some t => if t ≤ gracePeriod then some t else some gracePeriod
  | none => some gracePeriod

/-- The cleanup block of integration/test_mcp.py lines 158-162:
process.terminate(), then process.wait() with no timeout and no kill.
Returns the seconds until the subprocess is gone, or none when the
subprocess never exits and wait() blocks forever. -/
def integrationMcp.cleanup (p : Subprocess) : Option Nat :=
  match p.exitDelay with
  | some t => some t
  | none => none

/-- One observable action of a script, in program order: launching the
subprocess, sleeping for a number of seconds, or writing a request line
to the subprocess's stdin. -/
inductive Action where
  | launch
  | sleep (seconds : Nat)
  | sendLine (method : String)

/-- Whether a positive sleep occurs before the first request is written:
scanning the trace in order, a sleep of at least one second seen before
any sendLine satisfies the warm-up contract. -/
def warmupBeforeFirstSend : List Action → Bool
  | [] => true
  | Action.sleep s :: rest =>
    if s ≥ 1 then true else warmupBeforeFirstSend rest
  | Action.sendLine _ :: _ => false
  | Action.launch :: rest => warmupBeforeFirstSend rest

/-- The action trace of tools/test_full_mcp.py's test_mcp_server: Popen
(line 18), time.sleep(1) (line 92), then the three requests (lines
95, 112, 127). -/
def fullMcp.trace : List Action :=
  [Action.launch, Action.sleep 1,
   Action.sendLine "initialize", Action.sendLine "tools/list",
   Action.sendLine "tools/call"]

/-- The action trace of tools/mcp-debug.py's send_mcp_request (lines
30-37): subprocess.run delivers the request on stdin at launch, with no
sleep before it. -/
def mcpDebug.sendMcpRequestTrace : List Action :=
  [Action.launch, Action.sendLine "tools/call"]

/-- The action trace of test_event_management.py's test_mcp_tool (lines
24-31): subprocess.run delivers the request on stdin at launch, with no
sleep before it. -/
def eventMgmt.testMcpToolTrace : List Action :=
  [Action.launch, Action.sendLine "tools/call"]

/-- The guard of test_event_management.py line 93 (if not create_result
or not create_result.get("success")), with Python's evaluation order: a
falsy create_result (None included) short-circuits to a clean stop
before .get is called; a truthy non-dict create_result — reachable,
since test_mcp_tool's line 61 can return the raw parsed stdout — raises
an uncaught AttributeError at the .get call; a truthy dict stops or
proceeds on the truthiness of its success member. -/
def eventMgmt.lifecycleGuard (createResult : Option Json) : PyResult Bool :=
  match createResult with
  | none => PyResult.ok false
  | some r =>
    if r.isTruthy then
      match r with
      | Json.obj fields =>
        PyResult.ok (((Json.obj fields).get "success").getD Json.null).isTruthy
      | _ => PyResult.exn "AttributeError"
    else PyResult.ok false

/-- What one run of test_event_management.py's test_event_lifecycle
produces, given the value test_mcp_tool returned for the create step:
the tool requests actually sent and the per-step report headers printed
by test_mcp_tool (its line 20) for the steps that ran. -/
structure LifecycleRun where
  sent : List String
  report : List String

/-- The driver logic of test_event_management.py's test_event_lifecycle
(lines 83-115), as a function of the create step's returned value: when
the guard at line 93 fails cleanly, the function returns after the
create step (printing only a stopping message, with no per-step entry
for the modify and delete steps); when the guard raises, the exception
propagates; otherwise it reads create_result["event"]["id"] (a KeyError
or TypeError on an ill-shaped event member escapes uncaught) and sends
the modify and delete requests. -/
def eventMgmt.testEventLifecycle (createResult : Option Json) :
    PyResult LifecycleRun :=
  match eventMgmt.lifecycleGuard createResult with
  | PyResult.exn e => PyResult.exn e
  | PyResult.ok false =>
    PyResult.ok { sent := ["create_event"], report := ["Create New Event"] }
  | PyResult.ok true =>
    match ((createResult.getD Json.null).get "event") with
    | some (Json.obj efields) =>
      match (Json.obj efields).get "id" with
      | some _ =>
        PyResult.ok
          { sent := ["create_event", "modify_event", "delete_event"],
            report := ["Create New Event", "Modify Existing Event", "Delete Event"] }
      | none => PyResult.exn "KeyError"
    | some _ => PyResult.exn "TypeError"
    | none => PyResult.exn "KeyError"

/-- The id extraction of tools/mcp-debug.py's test_event_workflow (lines
246-251), run entirely inside a try/except that swallows every failure:
create_response["result"]["content"][0]["text"] is parsed and, when the
parsed data has an event member with an id member, that id is produced;
any missing or ill-shaped piece yields none (the except: pass path). -/
def mcpDebug.extractEventId (parse : Parse) (createResponse : Json) : Option Json := do
  let result ← createResponse.get "result"
  let content ← result.get "content"
  let c0 ← match content with
    | Json.arr (c0 :: _) => some c0
    | _ => none
  let textJ ← c0.get "text"
  let t ← match textJ with
    | Json.str t => some t
    | _ => none
  let data ← parse t
  let ev ← data.get "event"
  if (ev.get "id").isSome then ev.get "id" else none

/-- Python equality of a list element against the string "result", as
used by the membership operator on a list: only the equal string
compares true. -/
def listHasStrResult : List Json → Bool
  | [] => false
  | Json.str s :: rest => if s = "result" then true else listHasStrResult rest
  | _ :: rest => listHasStrResult rest

/-- Substring containment, as Python's membership operator tests it on a
string: the needle occurs as a contiguous run of the haystack. -/
def pyHasSub (needle : List Char) : List Char → Bool
  | [] => needle.isEmpty
  | c :: rest => needle.isPrefixOf (c :: rest) || pyHasSub needle rest

/-- The membership test "result" in create_response of mcp-debug.py line
245, on a truthy response: a key test on a dict, a substring test on a
string, an equality scan on a list, and an uncaught TypeError on any
non-container value (a number or a boolean). -/
def mcpDebug.containsResult (r : Json) : PyResult Bool :=
  match r with
  | Json.obj _ => PyResult.ok (r.hasKey "result")
  | Json.str s => PyResult.ok (pyHasSub "result".data s.data)
  | Json.arr elems => PyResult.ok (listHasStrResult elems)
  | _ => PyResult.exn "TypeError"

/-- The driver logic of tools/mcp-debug.py's test_event_workflow (lines
231-257), as a function of the create step's returned response: the list
of tool requests sent.  The delete (cleanup) request is sent only when
the create response is truthy, passes the membership test for a result
member (which raises for non-container responses), and the event id can
be extracted; in every other non-raising case the function ends silently
after the create request, recording nothing (the enclosing scenario
runner prints a generic completed line either way). -/
def mcpDebug.testEventWorkflow (parse : Parse) (createResponse : Option Json) :
    PyResult (List String) :=
  match createResponse with
  | some r =>
    if r.isTruthy then
      match mcpDebug.containsResult r with
      | PyResult.exn e => PyResult.exn e
      | PyResult.ok true =>
        match mcpDebug.extractEventId parse r with
        | some _ => PyResult.ok ["create_event", "delete_event"]
        | none => PyResult.ok ["create_event"]
      | PyResult.ok false => PyResult.ok ["create_event"]
    else PyResult.ok ["create_event"]
  | none => PyResult.ok ["create_event"]

/-
  Concrete fixtures for witnesses and counterexamples.  Each parse function
  instantiates the json.loads abstraction on the exact line strings of its
  scenario, mapping each line to the value json.loads would produce.
-/

/-- A request with id 1, as sent by the scripts. -/
def reqId1 : Json := Json.obj [("id", Json.num 1), ("method", Json.str "tools/call")]

/-- A well-formed response line whose id is 999, not 1. -/
def respLine999 : String := "\x7b\"id\": 999, \"result\": \x7b\x7d\x7d"

/-- The value json.loads produces for respLine999. -/
def resp999 : Json := Json.obj [("id", Json.num 999), ("result", Json.obj [])]

/-- json.loads on the lines of the C1 scenario. -/
def parseC1 : Parse := fun s => if s = respLine999 then some resp999 else none

/-- A line that parses as a JSON object carrying neither result nor error. -/
def noRELine : String := "\x7b\"id\": 1\x7d"

/-- The value json.loads produces for noRELine. -/
def noREResp : Json := Json.obj [("id", Json.num 1)]

/-- json.loads on the lines of the C2 scenario. -/
def parseC2 : Parse := fun s => if s = noRELine then some noREResp else none

/-- Any nonempty line failing the brace-quote test has a first character,
so an all-whitespace or otherwise empty string never passes it. -/
theorem pyStartsWith_empty_false : pyStartsWith "" jsonObjStart = false := by
  decide

/-- C1 (counterexample): the correlator of test_edge_cases.py never
inspects ids.  With the request carrying id 1 and the only stdout line a
well-formed response carrying id 999, send_request returns the id-999
response instead of skipping it, so the claim that send returns only a
response whose id equals the request's id is false. -/
theorem C1_counterexample :
    edgeCases.sendRequest reqId1 false parseC1 [respLine999] =
      PyResult.ok (some resp999) ∧
    reqId1.get "id" = some (Json.num 1) ∧
    resp999.get "id" = some (Json.num 999) :=
  ⟨rfl, rfl, rfl⟩

/-- C1 (amended): neither correlator inspects ids.  In test_edge_cases.py
send_request returns the first queued candidate line's parse — whatever
id that line carries — whenever the classification block of lines 47-56
resolves without raising; lines before it that fail the candidate test or
fail to parse are skipped.  In test_full_mcp.py the first nonempty queued
line decides the exchange, and when it parses its parse is returned,
again whatever its id. -/
theorem C1_first_candidate_wins (request : Json) (expectError : Bool)
    (parse : Parse) (pre : List String) (line : String) (rest : List String)
    (r : Json) (o : Outcome)
    (hpre : ∀ l ∈ pre, pyStartsWith l jsonObjStart = false ∨ parse l = none)
    (hline : pyStartsWith line jsonObjStart = true)
    (hparse : parse line = some r)
    (_hro : ∃ rfields, r = Json.obj rfields)
    (hclass : edgeCases.classifyRun expectError r = PyResult.ok o) :
    edgeCases.sendRequest request expectError parse (pre ++ line :: rest) =
      PyResult.ok (some r) ∧
    (∀ pre2 rest2, (∀ l ∈ pre2, l = "") →
      fullMcp.sendRequest request parse (pre2 ++ line :: rest2) = r) := by
  have hne : line ≠ "" := by
    intro he
    rw [he, pyStartsWith_empty_false] at hline
    exact Bool.false_ne_true hline
  constructor
  · induction pre with
    | nil =>
      simp only [List.nil_append, edgeCases.sendRequest]
      rw [if_pos ⟨hne, hline⟩]
      simp only [hparse, hclass]
    | cons head tail ih =>
      have hhead := hpre head (List.mem_cons_self head tail)
      have htail : ∀ l ∈ tail, pyStartsWith l jsonObjStart = false ∨ parse l = none :=
        fun l hl => hpre l (List.mem_cons_of_mem head hl)
      simp only [List.cons_append, edgeCases.sendRequest]
      rcases hhead with hs | hp
      · rw [if_neg]
        · exact ih htail
        · rintro ⟨_, hc⟩
          rw [hs] at hc
          exact Bool.false_ne_true hc
      · by_cases hc : head ≠ "" ∧ pyStartsWith head jsonObjStart = true
        · rw [if_pos hc, hp]
          exact ih htail
        · rw [if_neg hc]
          exact ih htail
  · intro pre2 rest2
    induction pre2 with
    | nil =>
      intro _
      simp only [List.nil_append, fullMcp.sendRequest]
      rw [if_pos hne, hparse]
    | cons head tail ih =>
      intro hpre2
      have hhead : head = "" := hpre2 head (List.mem_cons_self head tail)
      simp only [List.cons_append, fullMcp.sendRequest]
      rw [if_neg (fun hc => hc hhead)]
      exact ih (fun l hl => hpre2 l (List.mem_cons_of_mem head hl))

/-- C1 (witness): with one unparseable noise line ahead of the matching
line, the edge-cases send_request still returns the parsed response, and
the full-mcp loop skips an empty line to return the same parse. -/
theorem C1_first_candidate_wins_witness :
    edgeCases.sendRequest reqId1 false parseC1 ["Server started", respLine999] =
      PyResult.ok (some resp999) ∧
    fullMcp.sendRequest reqId1 parseC1 ["", respLine999] = resp999 := by
  have h := C1_first_candidate_wins reqId1 false parseC1 ["Server started"]
    respLine999 [] resp999 Outcome.success
    (by
      intro l hl
      rw [List.mem_singleton] at hl
      subst hl
      exact Or.inr rfl)
    rfl rfl ⟨_, rfl⟩ rfl
  exact ⟨h.1, h.2 [""] []
    (by
      intro l hl
      rw [List.mem_singleton] at hl
      exact hl)⟩

/-- C2 (counterexample): two ways the claim fails on the code.  In
test_full_mcp.py a stdout line that fails to parse as JSON is not
discarded: it immediately terminates the exchange, returned wrapped in a
raw_response object (lines 71-73).  In test_edge_cases.py a line that
parses but lacks both result and error is not discarded either: it is
returned as the response (line 45-57). -/
theorem C2_counterexample :
    fullMcp.sendRequest reqId1 (fun _ => none) ["oops"] =
      Json.obj [("raw_response", Json.str "oops")] ∧
    edgeCases.sendRequest reqId1 false parseC2 [noRELine] =
      PyResult.ok (some noREResp) :=
  ⟨rfl, rfl⟩

/-- C2 (amended): in the edge-cases correlator, a line that fails the
brace-quote candidate test or fails to parse as JSON is discarded and
polling continues; if only such lines arrive before the deadline the
exchange resolves as Timeout (None).  A line that parses is returned even
when it lacks both result and error, and the full-mcp variant terminates
the exchange on the first nonempty line whatever it holds. -/
theorem C2_malformed_lines_time_out (request : Json) (expectError : Bool)
    (parse : Parse) (lines : List String)
    (h : ∀ l ∈ lines, pyStartsWith l jsonObjStart = false ∨ parse l = none) :
    edgeCases.sendRequest request expectError parse lines =
      edgeCases.timeoutValue := by
  induction lines with
  | nil => rfl
  | cons head tail ih =>
    have hhead := h head (List.mem_cons_self head tail)
    have htail : ∀ l ∈ tail, pyStartsWith l jsonObjStart = false ∨ parse l = none :=
      fun l hl => h l (List.mem_cons_of_mem head hl)
    simp only [edgeCases.sendRequest]
    rcases hhead with hs | hp
    · rw [if_neg]
      · exact ih htail
      · rintro ⟨_, hc⟩
        rw [hs] at hc
        exact Bool.false_ne_true hc
    · by_cases hc : head ≠ "" ∧ pyStartsWith head jsonObjStart = true
      · rw [if_pos hc, hp]
        exact ih htail
      · rw [if_neg hc]
        exact ih htail

/-- C2 (witness): a queue holding only diagnostic noise and an empty line
resolves as Timeout. -/
theorem C2_malformed_lines_time_out_witness :
    edgeCases.sendRequest reqId1 false (fun _ => none) ["Server started", ""] =
      edgeCases.timeoutValue :=
  C2_malformed_lines_time_out reqId1 false (fun _ => none) ["Server started", ""]
    (by intro l hl; right; rfl)

/-- A response carrying a result and no error, for the classifier. -/
def respResOnly : Json := Json.obj [("id", Json.num 1), ("result", Json.obj [])]

/-- A response carrying an error with a message and no result. -/
def respErrOnly : Json :=
  Json.obj [("id", Json.num 1),
            ("error", Json.obj [("code", Json.num (-32601)), ("message", Json.str "no such method")])]

/-- C3: the outcome classification of test_edge_cases.py, on responses
shaped per the spec's Response data model (at most one of result and
error, an error member being an object): with expect_error set, a
response carrying a result is classified mismatch, never success, and a
response carrying an error holding a message is classified success; with
expect_error clear, a response carrying an error is classified as a
protocol error carrying the extracted error message (the message member
when present, the Unknown default otherwise). -/
theorem C3_classifier_outcomes (r : Json)
    (hwf : r.hasKey "result" = false ∨ r.hasKey "error" = false) :
    (r.hasKey "result" = true →
      edgeCases.classifyRun true r = PyResult.ok Outcome.mismatch ∧
      edgeCases.classifyRun true r ≠ PyResult.ok Outcome.success) ∧
    (∀ efields msg, r.get "error" = some (Json.obj efields) →
      (Json.obj efields).get "message" = some msg →
      edgeCases.classifyRun true r = PyResult.ok Outcome.success) ∧
    (∀ efields, r.get "error" = some (Json.obj efields) →
      edgeCases.classifyRun false r = PyResult.ok (Outcome.protocolError
        (((Json.obj efields).get "message").getD (Json.str "Unknown")))) := by
  refine ⟨fun hres => ?_, fun efields msg herr hmsg => ?_, fun efields herr => ?_⟩
  · have herr : r.hasKey "error" = false := by
      rcases hwf with h | h
      · rw [hres] at h
        exact absurd h (by decide)
      · exact h
    constructor
    · simp [edgeCases.classifyRun, herr]
    · simp [edgeCases.classifyRun, herr]
  · have hk : r.hasKey "error" = true := by
      rw [Json.hasKey, herr]
      rfl
    simp [edgeCases.classifyRun, hk, herr, hmsg]
  · have hres : r.hasKey "result" = false := by
      rcases hwf with h | h
      · exact h
      · exfalso
        rw [Json.hasKey, herr] at h
        simp at h
    simp [edgeCases.classifyRun, hres, herr]

/-- C3 (witness): the classification evaluated at a result-only response
under expect_error, and at an error-with-message response under both
flags. -/
theorem C3_classifier_outcomes_witness :
    edgeCases.classifyRun true respResOnly = PyResult.ok Outcome.mismatch ∧
    edgeCases.classifyRun true respErrOnly = PyResult.ok Outcome.success ∧
    edgeCases.classifyRun false respErrOnly = PyResult.ok (Outcome.protocolError
      (((Json.obj [("code", Json.num (-32601)),
        ("message", Json.str "no such method")]).get
        "message").getD (Json.str "Unknown"))) :=
  ⟨((C3_classifier_outcomes respResOnly (Or.inr rfl)).1 rfl).1,
   (C3_classifier_outcomes respErrOnly (Or.inl rfl)).2.1
     [("code", Json.num (-32601)), ("message", Json.str "no such method")]
     (Json.str "no such method") rfl rfl,
   (C3_classifier_outcomes respErrOnly (Or.inl rfl)).2.2
     [("code", Json.num (-32601)), ("message", Json.str "no such method")] rfl⟩

/-- C4 (counterexample): when the create step fails, the dependent steps
are indeed never sent, but neither driver records them as skipped: the
lifecycle report of test_event_management.py holds an entry only for the
create step (lines 93-95 print a single stopping message and return), and
mcp-debug.py's test_event_workflow silently omits the cleanup delete
(lines 245-257 record nothing at all), so the claim that the skipped step
appears in the scenario report with outcome skipped is false. -/
theorem C4_counterexample :
    eventMgmt.testEventLifecycle none =
      PyResult.ok { sent := ["create_event"], report := ["Create New Event"] } ∧
    mcpDebug.testEventWorkflow (fun _ => none) none =
      PyResult.ok ["create_event"] :=
  ⟨rfl, rfl⟩

/-- C4 (amended): a dependent step whose prerequisite failed cleanly (the
line-93 guard of the lifecycle test evaluating to a stop without raising,
the line-245 membership test of the debug workflow resolving to false or
its response falsy or absent) is never attempted — the modify and delete
requests of the lifecycle test and the cleanup delete of the debug
workflow are not sent — but no skipped outcome is recorded for it; the
reports hold entries only for the steps that ran. -/
theorem C4_dependent_steps_not_sent (cr₁ cr₂ : Option Json) (parse : Parse)
    (h₁ : eventMgmt.lifecycleGuard cr₁ = PyResult.ok false)
    (h₂ : ∀ r, cr₂ = some r → r.isTruthy = true →
      mcpDebug.containsResult r = PyResult.ok false) :
    eventMgmt.testEventLifecycle cr₁ =
      PyResult.ok { sent := ["create_event"], report := ["Create New Event"] } ∧
    mcpDebug.testEventWorkflow parse cr₂ = PyResult.ok ["create_event"] := by
  constructor
  · simp [eventMgmt.testEventLifecycle, h₁]
  · cases cr₂ with
    | none => rfl
    | some r =>
      cases ht : r.isTruthy with
      | false => simp [mcpDebug.testEventWorkflow, ht]
      | true =>
        have hc := h₂ r rfl ht
        simp [mcpDebug.testEventWorkflow, ht, hc]

/-- C4 (witness): both drivers stop after the create step when its call
returned None. -/
theorem C4_dependent_steps_not_sent_witness :
    eventMgmt.testEventLifecycle none =
      PyResult.ok { sent := ["create_event"], report := ["Create New Event"] } ∧
    mcpDebug.testEventWorkflow (fun _ => some Json.null) none =
      PyResult.ok ["create_event"] :=
  C4_dependent_steps_not_sent none none (fun _ => some Json.null) rfl
    (fun _ hr _ => Option.noConfusion hr)

/-- The error-response line of the C5 scenario. -/
def errLineC5 : String :=
  "\x7b\"id\": 1, \"error\": \x7b\"code\": -32601, \"message\": \"no such method\"\x7d\x7d"

/-- json.loads on the lines of the C5 scenario (an error response). -/
def parseC5 : Parse := fun s => if s = errLineC5 then some respErrOnly else none

/-- C5 (counterexample): in real_world_tests.py, send_request returns None
both when the server answers with an explicit error object (line 55) and
when the deadline elapses with no response (line 61): the two outcomes are
the same value, so a caller inspecting the result cannot tell them
apart, refuting the claim for that correlator. -/
theorem C5_counterexample :
    realWorld.sendRequest reqId1 parseC5 [errLineC5] = realWorld.timeoutValue ∧
    realWorld.sendRequest reqId1 parseC5 [] = realWorld.timeoutValue :=
  ⟨rfl, rfl⟩

/-- C5 (amended): in test_full_mcp.py a matched protocol-error response —
an object carrying an error member — is returned as that object, distinct
from the None the deadline path returns (a bare null response line would
however coincide with it, since json.loads of null is None); in
real_world_tests.py a candidate response without a result member, its
error member a dict, returns None — the very value of the deadline
path — so that correlator's caller cannot tell the two apart. -/
theorem C5_timeout_distinct_only_in_full_mcp (request : Json) (parse : Parse)
    (line : String) (r : Json) (efields : List (String × Json))
    (hne : line ≠ "")
    (hparse : parse line = some r)
    (herr : r.get "error" = some (Json.obj efields)) :
    (∀ rest, fullMcp.sendRequest request parse (line :: rest) = r) ∧
    r ≠ fullMcp.timeoutValue ∧
    (∀ rest, pyStartsWith line jsonObjStart = true →
      r.hasKey "result" = false →
      realWorld.sendRequest request parse (line :: rest) =
        realWorld.timeoutValue) := by
  have hobj : ∃ fields, r = Json.obj fields := by
    cases r with
    | obj fields => exact ⟨fields, rfl⟩
    | null => exact Option.noConfusion herr
    | bool b => exact Option.noConfusion herr
    | num n => exact Option.noConfusion herr
    | str s => exact Option.noConfusion herr
    | arr elems => exact Option.noConfusion herr
  obtain ⟨fields, rfl⟩ := hobj
  refine ⟨fun rest => ?_, ?_, fun rest hstart hnores => ?_⟩
  · simp only [fullMcp.sendRequest]
    rw [if_pos hne, hparse]
  · intro hc
    rw [fullMcp.timeoutValue] at hc
    exact Json.noConfusion hc
  · simp only [realWorld.sendRequest]
    rw [if_pos ⟨hne, hstart⟩]
    simp only [hparse, hnores, herr, Option.getD_some, realWorld.timeoutValue]
    rw [if_neg (by decide : ¬(false = true))]

/-- C5 (witness): evaluated on the error-response exchange: test_full_mcp
returns the error dict, a value other than its timeout None, while
real_world_tests returns exactly its timeout None for the same
exchange. -/
theorem C5_timeout_distinct_only_in_full_mcp_witness :
    fullMcp.sendRequest reqId1 parseC5 [errLineC5] = respErrOnly ∧
    respErrOnly ≠ fullMcp.timeoutValue ∧
    realWorld.sendRequest reqId1 parseC5 [errLineC5] = realWorld.timeoutValue := by
  have h := C5_timeout_distinct_only_in_full_mcp reqId1 parseC5 errLineC5
    respErrOnly
    [("code", Json.num (-32601)), ("message", Json.str "no such method")]
    (by decide) rfl rfl
  exact ⟨h.1 [], h.2.1, h.2.2 [] rfl rfl⟩

/-- C6 (counterexample): a subprocess that ignores the termination signal
and never exits.  integration/test_mcp.py's cleanup (terminate then a
wait with no timeout and no kill, lines 158-162) blocks on it forever
(modelled as none), so the claim that the Terminating-to-Terminated
transition always completes is false for that script; test_full_mcp.py's
cleanup kills the same subprocess after its 2-second grace period. -/
theorem C6_counterexample :
    integrationMcp.cleanup { exitDelay := none } = none ∧
    fullMcp.cleanup { exitDelay := none } = some gracePeriod :=
  ⟨rfl, rfl⟩

/-- C6 (amended): the cleanup of test_full_mcp.py always completes,
within the bounded 2-second grace period, whatever the subprocess does —
but the cleanup of integration/test_mcp.py waits without a timeout and
never forces termination, so a hung subprocess blocks it indefinitely. -/
theorem C6_full_mcp_cleanup_bounded (p : Subprocess) :
    ∃ t, fullMcp.cleanup p = some t ∧ t ≤ gracePeriod := by
  cases h : p.exitDelay with
  | none => exact ⟨gracePeriod, by simp [fullMcp.cleanup, h], le_refl _⟩
  | some t =>
    by_cases ht : t ≤ gracePeriod
    · exact ⟨t, by simp [fullMcp.cleanup, h, ht], ht⟩
    · exact ⟨gracePeriod, by simp [fullMcp.cleanup, h, ht], le_refl _⟩

/-- C7 (counterexample): the subprocess.run-based scripts deliver the
request on stdin at launch: neither mcp-debug.py's send_mcp_request
(lines 30-37) nor test_event_management.py's test_mcp_tool (lines 24-31)
sleeps before the first request, so the claim that every scenario honors
a warm-up delay before the first request is false. -/
theorem C7_counterexample :
    warmupBeforeFirstSend mcpDebug.sendMcpRequestTrace = false ∧
    warmupBeforeFirstSend eventMgmt.testMcpToolTrace = false :=
  ⟨rfl, rfl⟩

/-- C7 (amended): the Popen-based harness of test_full_mcp.py does honor
the warm-up contract: its trace sleeps one second after launch, before
the first request is written. -/
theorem C7_full_mcp_warmup_honored :
    warmupBeforeFirstSend fullMcp.trace = true :=
  rfl

/-- C8 (counterexample): the drain pumps of test_edge_cases.py and
real_world_tests.py push nothing on end-of-stream: a closed stream that
produced no lines leaves their queues empty, indistinguishable from an
open stream with no data yet; only test_full_mcp.py's pump pushes the
("stdout", None) closure sentinel, so the claim quantified over every
drain pump is false. -/
theorem C8_counterexample :
    edgeCases.readStdout [] = [] ∧
    realWorld.readStdout [] = [] ∧
    fullMcp.readStdout [] = [("stdout", none)] :=
  ⟨rfl, rfl, rfl⟩

/-- C8 (amended): only the pumps of test_full_mcp.py push the closure
sentinel: for every stream, that pump's queue ends in the ("stdout",
None) sentinel and every earlier entry carries a line; the edge-cases
pump enqueues exactly the stripped lines, one entry per line, with no
sentinel appended. -/
theorem C8_sentinel_only_in_full_mcp (streamLines : List String) :
    (fullMcp.readStdout streamLines).getLast? = some ("stdout", none) ∧
    (∀ e ∈ (fullMcp.readStdout streamLines).dropLast, e.2.isSome = true) ∧
    (edgeCases.readStdout streamLines).length = streamLines.length := by
  refine ⟨?_, ?_, ?_⟩
  · rw [fullMcp.readStdout, List.getLast?_concat]
  · intro e he
    rw [fullMcp.readStdout, List.dropLast_concat, List.mem_map] at he
    obtain ⟨l, _, hl⟩ := he
    rw [← hl]
    rfl
  · rw [edgeCases.readStdout, List.length_map]

/-- The raw C9 stdout line: a well-formed response preceded by
whitespace. -/
def wsRawLine : String := "  \x7b\"id\": 1, \"result\": \x7b\x7d\x7d"

/-- The value json.loads produces for the stripped form of wsRawLine. -/
def wsResp : Json := Json.obj [("id", Json.num 1), ("result", Json.obj [])]

/-- json.loads on the lines of the C9 scenario. -/
def parseC9 : Parse :=
  fun s => if s = "\x7b\"id\": 1, \"result\": \x7b\x7d\x7d" then some wsResp else none

/-- C9 (counterexample): a well-formed response line beginning with
whitespace does not begin with the two candidate characters, yet the
exchange returns it: the drain pump strips the line before the correlator
applies its prefix test, so the claim that send never returns such a line
(resolving as Timeout instead) is false. -/
theorem C9_counterexample :
    pyStartsWith wsRawLine jsonObjStart = false ∧
    edgeCases.runExchange reqId1 false parseC9 [wsRawLine] =
      PyResult.ok (some wsResp) :=
  ⟨rfl, rfl⟩

/-- C9 (amended): the prefix test applies to the stripped line, not the
raw one: whitespace around a response is removed by the pump, so such
lines are matched; only a line whose stripped form starts otherwise —
for example a brace followed by a space — is never a candidate, and an
exchange seeing only such lines resolves as Timeout. -/
theorem C9_stripped_filter_times_out (request : Json) (expectError : Bool)
    (parse : Parse) (rawStreamLines : List String)
    (h : ∀ l ∈ rawStreamLines, pyStartsWith (pyStrip l) jsonObjStart = false) :
    edgeCases.runExchange request expectError parse rawStreamLines =
      edgeCases.timeoutValue := by
  induction rawStreamLines with
  | nil => rfl
  | cons head tail ih =>
    have hhead := h head (List.mem_cons_self head tail)
    have htail : ∀ l ∈ tail, pyStartsWith (pyStrip l) jsonObjStart = false :=
      fun l hl => h l (List.mem_cons_of_mem head hl)
    simp only [edgeCases.runExchange, edgeCases.readStdout, List.map_cons,
      edgeCases.sendRequest]
    rw [if_neg]
    · exact ih htail
    · rintro ⟨_, hc⟩
      rw [hhead] at hc
      exact Bool.false_ne_true hc

/-- C9 (witness): a stream holding a brace-space response line and a
noise line resolves as Timeout. -/
theorem C9_stripped_filter_times_out_witness :
    edgeCases.runExchange reqId1 false parseC9
      ["\x7b \"id\": 1, \"result\": \x7b\x7d\x7d", "Server log line"] =
      edgeCases.timeoutValue :=
  C9_stripped_filter_times_out reqId1 false parseC9
    ["\x7b \"id\": 1, \"result\": \x7b\x7d\x7d", "Server log line"]
    (by
      intro l hl
      rw [List.mem_cons, List.mem_singleton] at hl
      rcases hl with h | h <;> (subst h; rfl))

/-- C10: in real_world_tests.py's send_request, a candidate success
response whose result.content array is empty, or whose first content
entry's text member is not valid JSON, never resolves the exchange: the
loop continues with the remaining queued lines exactly as if the line had
not arrived, and an exchange seeing only that line returns the timeout
value None rather than the success response. -/
theorem C10_empty_or_bad_content_never_resolves (request : Json) (parse : Parse)
    (line : String) (r : Json) (rfields : List (String × Json))
    (hne : line ≠ "") (hstart : pyStartsWith line jsonObjStart = true)
    (hparse : parse line = some r)
    (hres : r.get "result" = some (Json.obj rfields))
    (hcontent :
      ((Json.obj rfields).get "content").getD (Json.arr []) = Json.arr [] ∨
      ∃ c0 cs t, ((Json.obj rfields).get "content").getD (Json.arr []) = Json.arr (c0 :: cs) ∧
        c0.get "text" = some (Json.str t) ∧ parse t = none) :
    (∀ rest, realWorld.sendRequest request parse (line :: rest) =
      realWorld.sendRequest request parse rest) ∧
    realWorld.sendRequest request parse [line] = realWorld.timeoutValue := by
  have hk : r.hasKey "result" = true := by
    rw [Json.hasKey, hres]
    rfl
  have step : ∀ rest, realWorld.sendRequest request parse (line :: rest) =
      realWorld.sendRequest request parse rest := by
    intro rest
    simp only [realWorld.sendRequest]
    rw [if_pos ⟨hne, hstart⟩, hparse]
    simp only [hk, if_true]
    rw [hres]
    simp only [Option.getD_some]
    rcases hcontent with hc | ⟨c0, cs, t, hc, htext, hpt⟩
    · rw [hc]
    · rw [hc]
      simp only []
      rw [htext]
      simp only [hpt]
  exact ⟨step, (step []).trans rfl⟩

/-- A success-response line whose result.content is empty. -/
def emptyContentLine : String := "\x7b\"id\": 1, \"result\": \x7b\"content\": []\x7d\x7d"

/-- The value json.loads produces for emptyContentLine. -/
def emptyContentResp : Json :=
  Json.obj [("id", Json.num 1), ("result", Json.obj [("content", Json.arr [])])]

/-- json.loads on the lines of the C10 scenario. -/
def parseC10 : Parse := fun s => if s = emptyContentLine then some emptyContentResp else none

/-- C10 (witness): an exchange whose only stdout line is a success
response with an empty content array returns the timeout value. -/
theorem C10_empty_or_bad_content_never_resolves_witness :
    realWorld.sendRequest reqId1 parseC10 [emptyContentLine] = realWorld.timeoutValue :=
  (C10_empty_or_bad_content_never_resolves reqId1 parseC10 emptyContentLine
    emptyContentResp [("content", Json.arr [])]
    (by decide) rfl rfl rfl (Or.inl rfl)).2

end AppleCalMcp
